import Mathlib

/-!
Verification of the SVG bounding-box trimmer (`src/assets/trim_svg.py`, the
legacy implementation, and `src/assets/trim_svg_fixed.py`, the reworked one).

Shallow embedding conventions:
* Python floats are modelled as rationals (`ℚ`).  All coordinate data in the
  claims is small integer/decimal data, on which Python float arithmetic is
  exact, so `ℚ` is a faithful model of the arithmetic the program performs.
  The literals `inf`/`nan` (accepted by Python's `float`) have no rational
  value and are outside the model, as are underscore-grouped literals.
* `float(...)` applied to an attribute string is modelled by `pyFloat`;
  a Python `ValueError` (and hence an aborted run) is modelled by
  `Except.error ()`.
* The regexes of the source are implemented directly over `List Char`
  with the same leftmost-search and greedy-with-backtracking semantics;
  see `numTokenQ` (the token regex for numbers, with and without exponent)
  and `searchTranslate` (the `translate(tx[, ty])` search).
* Writing the output file is modelled by the returned value: the trim
  functions return `(success?, written viewport)`, where the viewport is
  `none` exactly when no output file is written.  A propagated exception is
  `Except.error ()` (also: no output).
-/

set_option allowUnsafeReducibility true
attribute [semireducible] Rat.add Rat.mul Rat.inv Rat.sub

/-! ## Character and number-token utilities -/

/-- Python `\s` (ASCII part): space, tab, newline, carriage return,
vertical tab, form feed. -/
def isWS (c : Char) : Bool :=
  c == ' ' || c == '\t' || c == '\n' || c == '\r' || c == '\x0b' || c == '\x0c'

def skipWS (l : List Char) : List Char := l.dropWhile isWS

def takeDigits (l : List Char) : List Char × List Char :=
  (l.takeWhile Char.isDigit, l.dropWhile Char.isDigit)

def digitsToNat (l : List Char) : Nat :=
  l.foldl (fun a c => 10 * a + (c.toNat - 48)) 0

/-- Value of an unsigned decimal token `digits [. digits]`
(at least one digit present overall). -/
def decValue (intPart fracPart : List Char) : ℚ :=
  (digitsToNat intPart : ℚ) + (digitsToNat fracPart : ℚ) / (10 : ℚ) ^ fracPart.length

/-- Match of the regex `[-+]?\d*\.?\d+` at the head of `l`, after an optional
sign has been stripped: returns the token's value and the remaining input.
Greedy matching with backtracking on this pattern yields the longest prefix of
the form `digits* [. digits+]` ending in a digit, which is what is computed
here: the dot is consumed only when at least one digit follows it. -/
def numAfterSign (sgn : ℚ) (l1 : List Char) : Option (ℚ × List Char) :=
  match takeDigits l1 with
  | (d1, '.' :: l3) =>
    match takeDigits l3 with
    | ([], _) => if d1 = [] then none else some (sgn * decValue d1 [], '.' :: l3)
    | (d2, l4) => some (sgn * decValue d1 d2, l4)
  | (d1, l2) => if d1 = [] then none else some (sgn * decValue d1 [], l2)

/-- Match of the regex `[-+]?\d*\.?\d+` at the head of `l`
(used by `re.findall` for path data, polygon points and the translate
arguments). -/
def numTokenQ : List Char → Option (ℚ × List Char)
  | '-' :: r => numAfterSign (-1) r
  | '+' :: r => numAfterSign 1 r
  | l => numAfterSign 1 l

/-- Optional exponent part `(?:[eE][-+]?\d+)?` after a matched mantissa
(only in the fixed implementation's path-number regex).  If the exponent
group cannot complete, it is dropped (the regex group is optional). -/
def expAfter (v : ℚ) (fallback : List Char) (sgn : ℤ) (t : List Char) : ℚ × List Char :=
  match takeDigits t with
  | ([], _) => (v, fallback)
  | (ed, r4) => (v * (10 : ℚ) ^ (sgn * (digitsToNat ed : ℤ)), r4)

/-- Match of `[-+]?\d*\.?\d+(?:[eE][-+]?\d+)?` at the head of the input. -/
def numTokenExpQ (l : List Char) : Option (ℚ × List Char) :=
  match numTokenQ l with
  | none => none
  | some (v, r) =>
    match r with
    | 'e' :: r2 =>
      match r2 with
      | '+' :: t => some (expAfter v r 1 t)
      | '-' :: t => some (expAfter v r (-1) t)
      | _ => some (expAfter v r 1 r2)
    | 'E' :: r2 =>
      match r2 with
      | '+' :: t => some (expAfter v r 1 t)
      | '-' :: t => some (expAfter v r (-1) t)
      | _ => some (expAfter v r 1 r2)
    | _ => some (v, r)

/-- `re.findall` driver: at each position try to match a token; on a match,
continue after it, otherwise advance one character.  Fuel-indexed for
structural recursion; a matched token always consumes at least one character,
so fuel equal to the input length never runs out. -/
def findNumbersGo (tok : List Char → Option (ℚ × List Char)) :
    Nat → List Char → List ℚ
  | 0, _ => []
  | _, [] => []
  | Nat.succ fuel, c :: t =>
    match tok (c :: t) with
    | some (v, r) => v :: findNumbersGo tok fuel r
    | none => findNumbersGo tok fuel t

/-- `re.findall(r'[-+]?\d*\.?\d+', s)` with each token converted by `float`. -/
def findNumbers (l : List Char) : List ℚ := findNumbersGo numTokenQ l.length l

/-- `re.findall(r'[-+]?\d*\.?\d+(?:[eE][-+]?\d+)?', s)`, converted. -/
def findNumbersExp (l : List Char) : List ℚ := findNumbersGo numTokenExpQ l.length l

def trimWS (l : List Char) : List Char :=
  ((l.dropWhile isWS).reverse.dropWhile isWS).reverse

/-- Python's `float(s)` on decimal/exponent literals: strips surrounding
whitespace, then accepts `[+-]? (digits [. digits?] | . digits) ([eE][+-]?digits)?`.
`none` models a raised `ValueError`. -/
def pyFloat (s : String) : Option ℚ :=
  let l := trimWS s.data
  let (sgn, l1) : ℚ × List Char :=
    match l with
    | '-' :: r => (-1, r)
    | '+' :: r => (1, r)
    | _ => (1, l)
  let mant : Option (ℚ × List Char) :=
    match takeDigits l1 with
    | (d1, '.' :: l3) =>
      match takeDigits l3 with
      | ([], r3) => if d1 = [] then none else some (decValue d1 [], r3)
      | (d2, l4) => if d1 = [] ∧ d2 = [] then none else some (decValue d1 d2, l4)
    | (d1, l2) => if d1 = [] then none else some (decValue d1 [], l2)
  match mant with
  | none => none
  | some (m, rest) =>
    match rest with
    | [] => some (sgn * m)
    | e :: r2 =>
      if e == 'e' || e == 'E' then
        let (es, r3) : ℤ × List Char :=
          match r2 with
          | '+' :: t => (1, t)
          | '-' :: t => (-1, t)
          | _ => (1, r2)
        match takeDigits r3 with
        | ([], _) => none
        | (ed, r4) =>
          if r4 = [] then some (sgn * m * (10 : ℚ) ^ (es * (digitsToNat ed : ℤ)))
          else none
      else none

/-! ## The translate-transform regex

`re.search(r'translate\s*\(\s*([-+]?\d*\.?\d+)\s*,?\s*([-+]?\d*\.?\d+)?\s*\)', s)`,
shared by `parse_transform` (trim_svg_fixed.py) and the transform handling of
`get_element_bounds` (trim_svg.py).  The search scans for the leftmost
position where the whole pattern matches.  After the literal and `(` the
continuation is deterministic: each `\s*` is followed by a non-whitespace
atom, and shorter matches of a number group always leave a digit, sign or dot
in front of the continuation, which then fails, so the greedy longest number
match is the only candidate. -/

def matchTranslateAt (l : List Char) : Option (ℚ × Option ℚ) :=
  match skipWS l with
  | '(' :: l1 =>
    match numTokenQ (skipWS l1) with
    | none => none
    | some (t1, l2) =>
      let l3 := skipWS l2
      let l4 := match l3 with
        | ',' :: r => r
        | _ => l3
      let l5 := skipWS l4
      match numTokenQ l5 with
      | some (t2, l6) =>
        match skipWS l6 with
        | ')' :: _ => some (t1, some t2)
        | _ => none
      | none =>
        match l5 with
        | ')' :: _ => some (t1, none)
        | _ => none
  | _ => none

def translateLit : List Char := ['t', 'r', 'a', 'n', 's', 'l', 'a', 't', 'e']

def searchTranslate : List Char → Option (ℚ × Option ℚ)
  | [] => none
  | c :: t =>
    if translateLit.isPrefixOf (c :: t) then
      match matchTranslateAt ((c :: t).drop 9) with
      | some r => some r
      | none => searchTranslate t
    else searchTranslate t

/-- Does the string contain the literal `translate` at all? -/
def hasTranslate : List Char → Bool
  | [] => false
  | c :: t => translateLit.isPrefixOf (c :: t) || hasTranslate t

/-- `parse_transform` of trim_svg_fixed.py: extract `(tx, ty)` from the first
`translate(...)` occurrence, `ty` defaulting to 0 when the second group is
absent; `(0, 0)` when there is no match or the string is empty. -/
def parse_transform (s : String) : ℚ × ℚ :=
  if s = "" then (0, 0)
  else
    match searchTranslate s.data with
    | some (tx, oty) => (tx, oty.getD 0)
    | none => (0, 0)

/-! ## Rectangles and aggregation -/

/-- The bounds dictionaries `{'min_x': …, 'max_x': …, 'min_y': …, 'max_y': …}`. -/
structure Rect where
  min_x : ℚ
  max_x : ℚ
  min_y : ℚ
  max_y : ℚ
deriving DecidableEq

/-- One step of the aggregation fold (trim_svg.py lines 239-242):
componentwise min on the minima, max on the maxima. -/
def combine (a b : Rect) : Rect :=
  ⟨min a.min_x b.min_x, max a.max_x b.max_x, min a.min_y b.min_y, max a.max_y b.max_y⟩

/-- The aggregation with "no content" (`none`) as the starting accumulator,
as in the `has_content` / infinite-initial-bounds pattern of
`calculate_content_bounds`. -/
def mergeOpt : Option Rect → Option Rect → Option Rect
  | none, b => b
  | some a, none => some a
  | some a, some b => some (combine a b)

/-- Folding all produced rectangles into the aggregate, in document order. -/
def aggregate (l : List Rect) : Option Rect :=
  l.foldl (fun acc r => mergeOpt acc (some r)) none

def pyMin1 (a : ℚ) (l : List ℚ) : ℚ := l.foldl min a
def pyMax1 (a : ℚ) (l : List ℚ) : ℚ := l.foldl max a

/-- The merge of trim_svg_fixed.py lines 176-179: `min()`/`max()` over the
per-field lists of all bounds, `None` when the list is empty. -/
def fixedMerge : List Rect → Option Rect
  | [] => none
  | r :: rs =>
    some ⟨pyMin1 r.min_x (rs.map Rect.min_x), pyMax1 r.max_x (rs.map Rect.max_x),
          pyMin1 r.min_y (rs.map Rect.min_y), pyMax1 r.max_y (rs.map Rect.max_y)⟩

/-- `min(xs), max(xs), min(ys), max(ys)` guarded by
`if not x_coords or not y_coords` (shared shape of both path parsers and the
polygon branch). -/
def boundsOfLists : List ℚ → List ℚ → Option Rect
  | x :: xs, y :: ys => some ⟨pyMin1 x xs, pyMax1 x xs, pyMin1 y ys, pyMax1 y ys⟩
  | _, _ => none

/-- Shifting a bounds rectangle by a translation offset. -/
def translateRect (r : Rect) (tx ty : ℚ) : Rect :=
  ⟨r.min_x + tx, r.max_x + tx, r.min_y + ty, r.max_y + ty⟩

/-- Elements of a list at even positions (`coords[0::2]`). -/
def everyOther : List ℚ → List ℚ
  | [] => []
  | [x] => [x]
  | x :: _ :: xs => x :: everyOther xs

/-- `calculate_content_bounds`/`calculate_bounds_recursive` padding constants
and viewport formulas.  Legacy (trim_svg.py lines 248-255, padding 5): the
padding is added symmetrically around the untouched aggregate. -/
def addPaddingLegacy (r : Rect) : ℚ × ℚ × ℚ × ℚ :=
  (r.min_x - 5, r.min_y - 5, r.max_x - r.min_x + 2 * 5, r.max_y - r.min_y + 2 * 5)

/-- Fixed variant (trim_svg_fixed.py lines 182-186, padding 10): the source
mutates `min_x -= padding` and `min_y -= padding` *before* computing
`width = max_x - min_x + 2*padding`, so the subtracted padding is counted a
second time inside the width/height. -/
def addPaddingFixed (r : Rect) : ℚ × ℚ × ℚ × ℚ :=
  (r.min_x - 10, r.min_y - 10,
   r.max_x - (r.min_x - 10) + 2 * 10, r.max_y - (r.min_y - 10) + 2 * 10)

/-! ## Path mini-language parser of trim_svg.py (`parse_path_bounds`) -/

def isCmd (c : Char) : Bool :=
  c == 'M' || c == 'L' || c == 'H' || c == 'V' || c == 'C' || c == 'S' ||
  c == 'Q' || c == 'T' || c == 'A' || c == 'Z' ||
  c == 'm' || c == 'l' || c == 'h' || c == 'v' || c == 'c' || c == 's' ||
  c == 'q' || c == 't' || c == 'a' || c == 'z'

/-- `re.findall(r'[CMD][^CMD]*', d)`: the segment list.  Characters before the
first command letter are dropped; each segment is a command letter plus the
run of non-command characters after it.  Fuel-indexed as in `findNumbersGo`. -/
def splitCmdsGo : Nat → List Char → List (Char × List Char)
  | 0, _ => []
  | _, [] => []
  | Nat.succ fuel, c :: t =>
    if isCmd c then
      (c, t.takeWhile (fun x => !isCmd x)) :: splitCmdsGo fuel (t.dropWhile (fun x => !isCmd x))
    else splitCmdsGo fuel t

def splitCommands (l : List Char) : List (Char × List Char) := splitCmdsGo l.length l

/-- Parser state: cursor `(current_x, current_y)` plus the accumulated
`x_coords`/`y_coords` lists. -/
structure PPState where
  cx : ℚ
  cy : ℚ
  xs : List ℚ
  ys : List ℚ
deriving DecidableEq

/-- Set the cursor to `(x, y)` and emit the point. -/
def emitAbs (x y : ℚ) (st : PPState) : PPState :=
  ⟨x, y, st.xs ++ [x], st.ys ++ [y]⟩

/-- `L`/`T` and the implicit line-tos of `M`: absolute coordinate pairs;
an unpaired trailing operand is dropped. -/
def pairsAbs : List ℚ → PPState → PPState
  | x :: y :: rest, st => pairsAbs rest (emitAbs x y st)
  | _, st => st

/-- `l` and the implicit line-tos of `m`: relative coordinate pairs. -/
def pairsRel : List ℚ → PPState → PPState
  | x :: y :: rest, st => pairsRel rest (emitAbs (st.cx + x) (st.cy + y) st)
  | _, st => st

/-- `H`: each operand sets x; a point `(new_x, current_y)` is emitted. -/
def hAbs : List ℚ → PPState → PPState
  | [], st => st
  | x :: rest, st => hAbs rest ⟨x, st.cy, st.xs ++ [x], st.ys ++ [st.cy]⟩

/-- `V`. -/
def vAbs : List ℚ → PPState → PPState
  | [], st => st
  | y :: rest, st => vAbs rest ⟨st.cx, y, st.xs ++ [st.cx], st.ys ++ [y]⟩

/-- `h`. -/
def hRel : List ℚ → PPState → PPState
  | [], st => st
  | x :: rest, st => hRel rest ⟨st.cx + x, st.cy, st.xs ++ [st.cx + x], st.ys ++ [st.cy]⟩

/-- `v`. -/
def vRel : List ℚ → PPState → PPState
  | [], st => st
  | y :: rest, st => vRel rest ⟨st.cx, st.cy + y, st.xs ++ [st.cx], st.ys ++ [st.cy + y]⟩

/-- `C`: groups of 6, both control points and the endpoint are emitted;
an incomplete trailing group is dropped. -/
def cAbs : List ℚ → PPState → PPState
  | a :: b :: c :: d :: e :: f :: rest, st =>
    cAbs rest ⟨e, f, st.xs ++ [a, c, e], st.ys ++ [b, d, f]⟩
  | _, st => st

/-- `c`: relative groups of 6; the emitted points are offset from the cursor
*before* the group, and the cursor then advances by the endpoint operands. -/
def cRel : List ℚ → PPState → PPState
  | a :: b :: c :: d :: e :: f :: rest, st =>
    cRel rest ⟨st.cx + e, st.cy + f,
               st.xs ++ [st.cx + a, st.cx + c, st.cx + e],
               st.ys ++ [st.cy + b, st.cy + d, st.cy + f]⟩
  | _, st => st

/-- `S` and `Q` (identical code in the source): groups of 4, control point and
endpoint emitted. -/
def sqAbs : List ℚ → PPState → PPState
  | a :: b :: c :: d :: rest, st =>
    sqAbs rest ⟨c, d, st.xs ++ [a, c], st.ys ++ [b, d]⟩
  | _, st => st

/-- `A`: groups of 7; only the endpoint (operands 6 and 7) is emitted. -/
def aAbs : List ℚ → PPState → PPState
  | _ :: _ :: _ :: _ :: _ :: f :: g :: rest, st =>
    aAbs rest ⟨f, g, st.xs ++ [f], st.ys ++ [g]⟩
  | _, st => st

/-- Dispatch on the command letter, exactly the if/elif chain of
`parse_path_bounds`.  Letters with no branch in the source — among them the
lowercase `s`, `q`, `t`, `a`, and `Z`/`z` — leave the state unchanged. -/
def applyCmd : Char → List ℚ → PPState → PPState
  | 'M', coords, st =>
    (match coords with
     | c0 :: c1 :: rest => pairsAbs rest (emitAbs c0 c1 st)
     | _ => st)
  | 'L', coords, st => pairsAbs coords st
  | 'H', coords, st => hAbs coords st
  | 'V', coords, st => vAbs coords st
  | 'C', coords, st => cAbs coords st
  | 'S', coords, st => sqAbs coords st
  | 'Q', coords, st => sqAbs coords st
  | 'T', coords, st => pairsAbs coords st
  | 'A', coords, st => aAbs coords st
  | 'm', coords, st =>
    (match coords with
     | c0 :: c1 :: rest => pairsRel rest (emitAbs (st.cx + c0) (st.cy + c1) st)
     | _ => st)
  | 'l', coords, st => pairsRel coords st
  | 'h', coords, st => hRel coords st
  | 'v', coords, st => vRel coords st
  | 'c', coords, st => cRel coords st
  | _, _, st => st

/-- Process one command segment: extract its numbers, then dispatch. -/
def processSeg (seg : Char × List Char) (st : PPState) : PPState :=
  applyCmd seg.1 (findNumbers seg.2) st

/-- `parse_path_bounds` of trim_svg.py: the command-aware (Policy A) parser. -/
def parse_path_bounds (d : String) : Option Rect :=
  let final := (splitCommands d.data).foldl (fun st seg => processSeg seg st) ⟨0, 0, [], []⟩
  boundsOfLists final.xs final.ys

/-! ## Path parser of trim_svg_fixed.py (`get_path_bounds`, naive pairing) -/

/-- Consecutive pairing `(numbers[i], numbers[i+1])` for even `i`, an unpaired
trailing number dropped. -/
def pairUp : List ℚ → List (ℚ × ℚ)
  | x :: y :: r => (x, y) :: pairUp r
  | _ => []

/-- `get_path_bounds` of trim_svg_fixed.py: every number in the string (this
regex also accepts exponents), paired consecutively, command letters ignored. -/
def get_path_bounds (d : String) : Option Rect :=
  let ps := pairUp (findNumbersExp d.data)
  boundsOfLists (ps.map Prod.fst) (ps.map Prod.snd)

/-! ## The document tree

Opaque XML nodes: tag, attribute map, children, as the spec's data model
prescribes.  `ElementTree` exposes namespaced tags like `{…}rect`; the legacy
code dispatches with `tag.endswith(…)`, the fixed code with equality on
`tag.split('}')[-1]`. -/

inductive Node where
  | mk (tag : String) (attrs : List (String × String)) (children : List Node)

def Node.tag : Node → String
  | .mk t _ _ => t

def Node.attrs : Node → List (String × String)
  | .mk _ a _ => a

def Node.children : Node → List Node
  | .mk _ _ c => c

/-- `element.get(name)` — first binding of the attribute, if present. -/
def lookupAttr (attrs : List (String × String)) (k : String) : Option String :=
  match attrs with
  | [] => none
  | (k2, v) :: rest => if k = k2 then some v else lookupAttr rest k

/-- `element.get(name, default)` for string defaults. -/
def attrD (attrs : List (String × String)) (k dflt : String) : String :=
  (lookupAttr attrs k).getD dflt

/-- `float(element.get(name, 0))`: a missing attribute is 0, present but
unparseable text raises (models the un-caught `ValueError`). -/
def attrF (attrs : List (String × String)) (k : String) : Except Unit ℚ :=
  match lookupAttr attrs k with
  | none => .ok 0
  | some s =>
    match pyFloat s with
    | some v => .ok v
    | none => .error ()

/-- `str.endswith` (over the character list). -/
def pyEndsWith (s suffix : String) : Bool := suffix.data.isSuffixOf s.data

/-- `element.tag.split('}')[-1] if '}' in element.tag else element.tag`. -/
def localName (tag : String) : String :=
  if tag.data.contains '}' then ⟨(tag.data.reverse.takeWhile (fun c => !(c == '}'))).reverse⟩
  else tag

/-! ## trim_svg.py: `get_element_bounds` and the `iter()`-based walker -/

def rectBounds (x y w h : ℚ) : Rect := ⟨x, x + w, y, y + h⟩

def circleBounds (cx cy r : ℚ) : Rect := ⟨cx - r, cx + r, cy - r, cy + r⟩

def ellipseBounds (cx cy rx ry : ℚ) : Rect := ⟨cx - rx, cx + rx, cy - ry, cy + ry⟩

def lineBounds (x1 y1 x2 y2 : ℚ) : Rect := ⟨min x1 x2, max x1 x2, min y1 y2, max y1 y2⟩

/-- The polygon/polyline branch: numbers from the `points` attribute,
`coords[0::2]` as x values and `coords[1::2]` as y values. -/
def polygonBounds (coords : List ℚ) : Option Rect :=
  boundsOfLists (everyOther coords) (everyOther coords.tail)

/-- The shape-dispatch chain of `get_element_bounds` (trim_svg.py lines
148-208).  Note the source's branch order: the `endswith('line')` test comes
before the `endswith('polygon') or endswith('polyline')` test. -/
def shapeBounds (n : Node) : Except Unit (Option Rect) :=
  if pyEndsWith n.tag "rect" then do
    let x ← attrF n.attrs "x"
    let y ← attrF n.attrs "y"
    let w ← attrF n.attrs "width"
    let h ← attrF n.attrs "height"
    pure (some (rectBounds x y w h))
  else if pyEndsWith n.tag "circle" then do
    let cx ← attrF n.attrs "cx"
    let cy ← attrF n.attrs "cy"
    let r ← attrF n.attrs "r"
    pure (some (circleBounds cx cy r))
  else if pyEndsWith n.tag "ellipse" then do
    let cx ← attrF n.attrs "cx"
    let cy ← attrF n.attrs "cy"
    let rx ← attrF n.attrs "rx"
    let ry ← attrF n.attrs "ry"
    pure (some (ellipseBounds cx cy rx ry))
  else if pyEndsWith n.tag "path" then
    let d := attrD n.attrs "d" ""
    pure (if d = "" then none else parse_path_bounds d)
  else if pyEndsWith n.tag "line" then do
    let x1 ← attrF n.attrs "x1"
    let y1 ← attrF n.attrs "y1"
    let x2 ← attrF n.attrs "x2"
    let y2 ← attrF n.attrs "y2"
    pure (some (lineBounds x1 y1 x2 y2))
  else if pyEndsWith n.tag "polygon" || pyEndsWith n.tag "polyline" then
    let pts := attrD n.attrs "points" ""
    pure (if pts = "" then none else polygonBounds (findNumbers pts.data))
  else pure none

/-- `get_element_bounds`: shape bounds, then — only if a non-empty transform
attribute is present and bounds were produced — a shift by the first
`translate` match (no shift when the regex does not match). -/
def get_element_bounds (n : Node) : Except Unit (Option Rect) := do
  let b ← shapeBounds n
  match lookupAttr n.attrs "transform" with
  | some t =>
    if t ≠ "" then
      match b with
      | some r =>
        match searchTranslate t.data with
        | some (tx, oty) => pure (some (translateRect r tx (oty.getD 0)))
        | none => pure (some r)
      | none => pure none
    else pure b
  | none => pure b

/-- The skip set of `calculate_content_bounds`, tested with `endswith`. -/
def isNonVisualLegacy (t : String) : Bool :=
  pyEndsWith t "defs" || pyEndsWith t "metadata" || pyEndsWith t "title" ||
  pyEndsWith t "desc" || pyEndsWith t "script" || pyEndsWith t "style"

mutual
/-- `root.iter()`: every node of the subtree, in document (pre-)order. -/
def allNodes : Node → List Node
  | .mk t a cs => .mk t a cs :: allNodesL cs
def allNodesL : List Node → List Node
  | [] => []
  | n :: ns => allNodes n ++ allNodesL ns
end

/-- Resolve, in document order, each visited element that is not skipped;
the first raised error aborts.  Returns the produced rectangles. -/
def collectBounds : List Node → Except Unit (List Rect)
  | [] => pure []
  | n :: ns => do
    let b ← get_element_bounds n
    let rest ← collectBounds ns
    pure
      (match b with
       | some r => r :: rest
       | none => rest)

/-- The element scan of `calculate_content_bounds`: iterate the whole tree,
skipping (only) elements whose tag ends with a non-visual tag name —
`iter()` still descends into their children. -/
def legacyRects (root : Node) : Except Unit (List Rect) :=
  collectBounds ((allNodes root).filter (fun n => !isNonVisualLegacy n.tag))

/-- `calculate_content_bounds` (trim_svg.py lines 225-255): aggregate and pad,
`None` when nothing contributed. -/
def calculate_content_bounds (root : Node) : Except Unit (Option (ℚ × ℚ × ℚ × ℚ)) := do
  let rects ← legacyRects root
  match aggregate rects with
  | none => pure none
  | some r => pure (some (addPaddingLegacy r))

/-- The decision core of trim_svg.py's `trim_svg`: on `None` bounds report
failure (`False`) and write nothing; otherwise write the viewport and report
success.  (The before/after console report, which does not influence the
result, is not modelled.) -/
def trim_svg (root : Node) : Except Unit (Bool × Option (ℚ × ℚ × ℚ × ℚ)) := do
  match ← calculate_content_bounds root with
  | none => pure (false, none)
  | some q => pure (true, some q)

/-! ## trim_svg_fixed.py: the recursive walker -/

def nonVisualTags : List String := ["defs", "metadata", "title", "desc", "script", "style"]

/-- The own-bounds part of `calculate_bounds_recursive` (lines 57-133):
shape dispatch by equality on the local tag name, offsets already applied. -/
def fixedOwnBounds (tag : String) (attrs : List (String × String)) (ox oy : ℚ) :
    Except Unit (List Rect) :=
  let t := localName tag
  if t = "path" then
    let d := attrD attrs "d" ""
    if d = "" then pure []
    else
      match get_path_bounds d with
      | some pb => pure [translateRect pb ox oy]
      | none => pure []
  else if t = "rect" then do
    let x ← attrF attrs "x"
    let y ← attrF attrs "y"
    let w ← attrF attrs "width"
    let h ← attrF attrs "height"
    pure [⟨x + ox, x + w + ox, y + oy, y + h + oy⟩]
  else if t = "circle" then do
    let cx ← attrF attrs "cx"
    let cy ← attrF attrs "cy"
    let r ← attrF attrs "r"
    pure [⟨cx - r + ox, cx + r + ox, cy - r + oy, cy + r + oy⟩]
  else if t = "ellipse" then do
    let cx ← attrF attrs "cx"
    let cy ← attrF attrs "cy"
    let rx ← attrF attrs "rx"
    let ry ← attrF attrs "ry"
    pure [⟨cx - rx + ox, cx + rx + ox, cy - ry + oy, cy + ry + oy⟩]
  else if t = "line" then do
    let x1 ← attrF attrs "x1"
    let y1 ← attrF attrs "y1"
    let x2 ← attrF attrs "x2"
    let y2 ← attrF attrs "y2"
    pure [⟨min x1 x2 + ox, max x1 x2 + ox, min y1 y2 + oy, max y1 y2 + oy⟩]
  else if t = "polygon" || t = "polyline" then
    let pts := attrD attrs "points" ""
    if pts = "" then pure []
    else
      let coords := findNumbers pts.data
      if 2 ≤ coords.length then
        match boundsOfLists ((everyOther coords).map (fun c => c + ox))
                            ((everyOther coords.tail).map (fun c => c + oy)) with
        | some r => pure [r]
        | none => pure []
      else pure []
  else pure []

mutual
/-- `calculate_bounds_recursive` (trim_svg_fixed.py): the node's own parsed
translation is added to the inherited offset, its own bounds are produced
with that total offset, and the children are visited with it — children whose
local tag is non-visual are skipped together with their subtrees. -/
def calculate_bounds_recursive : Node → ℚ × ℚ → Except Unit (List Rect)
  | .mk tag attrs children, pt => do
    let tt := parse_transform (attrD attrs "transform" "")
    let own ← fixedOwnBounds tag attrs (pt.1 + tt.1) (pt.2 + tt.2)
    let rest ← walkChildren children (pt.1 + tt.1, pt.2 + tt.2)
    pure (own ++ rest)
def walkChildren : List Node → ℚ × ℚ → Except Unit (List Rect)
  | [], _ => pure []
  | c :: cs, pt => do
    let hd ← if localName c.tag ∈ nonVisualTags then pure [] else calculate_bounds_recursive c pt
    let rest ← walkChildren cs pt
    pure (hd ++ rest)
end

/-- The decision core of trim_svg_fixed.py's `trim_svg`: walk from the root
with offset (0,0), merge, and on an empty bounds list report failure and
write nothing; otherwise pad (with the double-counted padding of
`addPaddingFixed`) and write. -/
def trim_svg_fixed (root : Node) : Except Unit (Bool × Option (ℚ × ℚ × ℚ × ℚ)) := do
  let all ← calculate_bounds_recursive root (0, 0)
  match fixedMerge all with
  | none => pure (false, none)
  | some r => pure (true, some (addPaddingFixed r))


/-! ## Remaining definitions used by the statements -/

deriving instance DecidableEq for Except

/-- The well-formedness invariant of the spec's Rectangle data model. -/
def WF (r : Rect) : Prop := r.min_x ≤ r.max_x ∧ r.min_y ≤ r.max_y

/-- A document whose only shape sits inside a `defs` container. -/
def defsDoc : Node :=
  .mk "svg" []
    [.mk "defs" []
      [.mk "rect" [("x", "10"), ("y", "10"), ("width", "20"), ("height", "20")] []]]

/-- A rect carrying its own translation nested under a translated group. -/
def nestDoc : Node :=
  .mk "svg" []
    [.mk "g" [("transform", "translate(3,0)")]
      [.mk "rect" [("transform", "translate(5,5)"),
                   ("x", "0"), ("y", "0"), ("width", "10"), ("height", "10")] []]]

/-- A document whose rect has the given text as its `width` attribute. -/
def badRectDoc (w : String) : Node :=
  .mk "svg" [] [.mk "rect" [("width", w)] []]

/-- A rect with only an `x` attribute: every other numeric attribute is
missing and defaults to 0. -/
def noWidthRectDoc : Node :=
  .mk "svg" [] [.mk "rect" [("x", "10")] []]

/-- A document with no visual content at all. -/
def emptySvg : Node := .mk "svg" [] []

/-- A polyline whose `points` list has an odd number of tokens. -/
def oddPolyline : Node := .mk "polyline" [("points", "0,0 10")] []

/-! ## Helper lemmas -/

theorem foldl_min_le (l : List ℚ) : ∀ a : ℚ, l.foldl min a ≤ a := by
  induction l with
  | nil => intro a; exact le_refl a
  | cons h t ih => intro a; exact (ih (min a h)).trans (min_le_left a h)

theorem le_foldl_max (l : List ℚ) : ∀ a : ℚ, a ≤ l.foldl max a := by
  induction l with
  | nil => intro a; exact le_refl a
  | cons h t ih => intro a; exact (le_max_left a h).trans (ih (max a h))

theorem boundsOfLists_wf (xs ys : List ℚ) (r : Rect)
    (h : boundsOfLists xs ys = some r) : WF r := by
  cases xs with
  | nil => simp [boundsOfLists] at h
  | cons x xt =>
    cases ys with
    | nil => simp [boundsOfLists] at h
    | cons y yt =>
      simp only [boundsOfLists, Option.some.injEq] at h
      subst h
      exact ⟨(foldl_min_le xt x).trans (le_foldl_max xt x),
             (foldl_min_le yt y).trans (le_foldl_max yt y)⟩

theorem combine_comm_lemma (a b : Rect) : combine a b = combine b a := by
  cases a; cases b; simp [combine, min_comm, max_comm]

theorem combine_assoc_lemma (a b c : Rect) :
    combine (combine a b) c = combine a (combine b c) := by
  cases a; cases b; cases c; simp [combine, min_assoc, max_assoc]

theorem mergeOpt_comm_lemma (a b : Option Rect) : mergeOpt a b = mergeOpt b a := by
  cases a <;> cases b <;> simp [mergeOpt, combine_comm_lemma]

theorem mergeOpt_assoc_lemma (a b c : Option Rect) :
    mergeOpt (mergeOpt a b) c = mergeOpt a (mergeOpt b c) := by
  cases a <;> cases b <;> cases c <;> simp [mergeOpt, combine_assoc_lemma]

theorem foldl_mergeOpt_some (rs : List Rect) :
    ∀ a : Rect, rs.foldl (fun acc r => mergeOpt acc (some r)) (some a) =
      some (rs.foldl combine a) := by
  induction rs with
  | nil => intro a; rfl
  | cons h t ih => intro a; exact ih (combine a h)

theorem foldl_combine_fields (rs : List Rect) :
    ∀ a : Rect, rs.foldl combine a =
      ⟨pyMin1 a.min_x (rs.map Rect.min_x), pyMax1 a.max_x (rs.map Rect.max_x),
       pyMin1 a.min_y (rs.map Rect.min_y), pyMax1 a.max_y (rs.map Rect.max_y)⟩ := by
  induction rs with
  | nil => intro a; cases a; rfl
  | cons h t ih =>
    intro a
    simp only [List.foldl_cons, List.map_cons]
    rw [ih (combine a h)]
    rfl

theorem fixedMerge_eq_aggregate (l : List Rect) : fixedMerge l = aggregate l := by
  cases l with
  | nil => rfl
  | cons r rs =>
    show fixedMerge (r :: rs) = List.foldl _ (mergeOpt none (some r)) rs
    rw [show mergeOpt none (some r) = some r from rfl, foldl_mergeOpt_some,
        foldl_combine_fields]
    rfl

theorem searchTranslate_of_no_lit (l : List Char) (h : hasTranslate l = false) :
    searchTranslate l = none := by
  induction l with
  | nil => rfl
  | cons c t ih =>
    rw [hasTranslate, Bool.or_eq_false_iff] at h
    rw [searchTranslate, if_neg (by simp [h.1]), ih h.2]

theorem except_bind_ok {α β : Type} (a : α) (f : α → Except Unit β) :
    (Except.ok a >>= f) = f a := rfl

theorem except_bind_err {α β : Type} (f : α → Except Unit β) :
    ((Except.error () : Except Unit α) >>= f) = Except.error () := rfl

/-! ## Claims -/

/-- Claim C1.  Code evaluation at the claim's own example: the fixed
implementation's viewport for aggregate bounds (0,0)-(100,100) with its
padding constant 10 is (-10, -10, 130, 130), not the claimed
(-10, -10, 120, 120): subtracting the padding from `min_x`/`min_y` before
computing `width`/`height` makes the written extent `(max-min) + 3P`.  The
legacy implementation (padding constant 5) computes exactly the claimed
formula `(min_x-P, min_y-P, (max_x-min_x)+2P, (max_y-min_y)+2P)`. -/
theorem claim_C1_padding_eval :
    addPaddingFixed ⟨0, 100, 0, 100⟩ = (-10, -10, 130, 130) ∧
    addPaddingLegacy ⟨0, 100, 0, 100⟩ = (-5, -5, 110, 110) ∧
    (∀ r : Rect, addPaddingFixed r =
      (r.min_x - 10, r.min_y - 10,
       (r.max_x - r.min_x) + 3 * 10, (r.max_y - r.min_y) + 3 * 10)) ∧
    ((130 : ℚ) ≠ 120) := by
  refine ⟨by decide, by decide, fun r => ?_, by decide⟩
  simp only [addPaddingFixed, Prod.mk.injEq]
  refine ⟨trivial, trivial, by ring, by ring⟩

/-- Claim C2.  Code evaluation at the claim's own example: for a rectangle
inside a `defs` node, the legacy `iter()` walker still resolves the
rectangle (the skip test fires only on the `defs` element itself, not on its
descendants), so the aggregate changes and the trim succeeds; the fixed
recursive walker skips the `defs` subtree entirely and reports no content. -/
theorem claim_C2_defs_eval :
    legacyRects defsDoc = Except.ok [⟨10, 30, 10, 30⟩] ∧
    trim_svg defsDoc = Except.ok (true, some (5, 5, 30, 30)) ∧
    calculate_bounds_recursive defsDoc (0, 0) = Except.ok [] ∧
    trim_svg_fixed defsDoc = Except.ok (false, none) :=
  ⟨by decide, by decide, by decide, by decide⟩

/-- Claim C3.  Code evaluation at the claim's own example: for a rect with
`translate(5,5)` nested under a group with `translate(3,0)`, the fixed
recursive walker shifts the local bounds (0,10)×(0,10) by the accumulated
(8,5), but the legacy walker visits each element in isolation and applies
only the element's own transform, shifting by (5,5) and ignoring the
ancestor's (3,0). -/
theorem claim_C3_transform_eval :
    legacyRects nestDoc = Except.ok [⟨5, 15, 5, 15⟩] ∧
    calculate_bounds_recursive nestDoc (0, 0) = Except.ok [⟨8, 18, 5, 15⟩] ∧
    ((5 : ℚ) ≠ 8) :=
  ⟨by decide, by decide, by decide⟩

/-- Claim C4, counterexample: a chained transform string that is not a single
translation still yields a non-zero offset, because `re.search` finds the
`translate(…)` component anywhere in the string. -/
theorem claim_C4_counterexample :
    parse_transform "scale(2) translate(5,5)" = (5, 5) ∧
    parse_transform "scale(2) translate(5,5)" ≠ (0, 0) :=
  ⟨by decide, by decide⟩

/-- Claim C4 as amended: any transform string containing no `translate`
literal — in particular pure rotate/scale/skew/matrix content — yields
(0, 0), and `parse_transform` is total (no error is ever raised); but a
chained string containing a `translate(tx[, ty])` component yields that
component's offset. -/
theorem claim_C4_translate_ignored :
    (∀ s : String, hasTranslate s.data = false → parse_transform s = (0, 0)) ∧
    parse_transform "rotate(45)" = (0, 0) ∧
    parse_transform "scale(2)" = (0, 0) ∧
    parse_transform "skewX(30) skewY(10)" = (0, 0) ∧
    parse_transform "matrix(1,0,0,1,7,7)" = (0, 0) ∧
    parse_transform "translate(4,9) scale(2)" = (4, 9) := by
  refine ⟨fun s h => ?_, by decide, by decide, by decide, by decide, by decide⟩
  by_cases hs : s = ""
  · subst hs; rfl
  · rw [parse_transform, if_neg hs, searchTranslate_of_no_lit s.data h]

/-- Claim C4 witness: the amended statement applied at `"rotate(45)"`. -/
theorem claim_C4_witness :
    hasTranslate "rotate(45)".data = false ∧ parse_transform "rotate(45)" = (0, 0) :=
  ⟨by decide, claim_C4_translate_ignored.1 "rotate(45)" (by decide)⟩

/-- Claim C5, counterexample: the lowercase relative command `t` emits
nothing — `"M5,5 t10,10"` keeps bounds (5,5)-(5,5) instead of reaching the
claimed relative endpoint (15,15) — while the uppercase `T` does emit its
endpoint. -/
theorem claim_C5_counterexample :
    parse_path_bounds "M5,5 t10,10" = some ⟨5, 5, 5, 5⟩ ∧
    parse_path_bounds "M5,5 T10,10" = some ⟨5, 10, 5, 10⟩ ∧
    ((5 : ℚ) ≠ 15) :=
  ⟨by decide, by decide, by decide⟩

/-- Claim C5 as amended: in `parse_path_bounds` the lowercase commands `s`,
`q`, `t`, `a` are recognized by the tokenizer but have no handler — a segment
headed by one of them emits no points and leaves the cursor unchanged, for
every operand list; only the uppercase `S`, `Q`, `T`, `A` consume groups of
4, 4, 2 and 7 operands (illustrated for `S` vs `s`). -/
theorem claim_C5_lowercase_ignored :
    (∀ (body : List Char) (st : PPState), processSeg ('s', body) st = st) ∧
    (∀ (body : List Char) (st : PPState), processSeg ('q', body) st = st) ∧
    (∀ (body : List Char) (st : PPState), processSeg ('t', body) st = st) ∧
    (∀ (body : List Char) (st : PPState), processSeg ('a', body) st = st) ∧
    parse_path_bounds "M5,5 S1,2 3,4" = some ⟨1, 5, 2, 5⟩ ∧
    parse_path_bounds "M5,5 s1,2 3,4" = some ⟨5, 5, 5, 5⟩ :=
  ⟨fun _ _ => rfl, fun _ _ => rfl, fun _ _ => rfl, fun _ _ => rfl, by decide, by decide⟩

/-- Claim C6: whenever the walk produces zero rectangles, both trim variants
return the failure status `false`, write no output viewport, and do so as a
normal result (`Except.ok`), not an exception. -/
theorem claim_C6_no_content (root : Node) :
    (legacyRects root = Except.ok [] → trim_svg root = Except.ok (false, none)) ∧
    (calculate_bounds_recursive root (0, 0) = Except.ok [] →
      trim_svg_fixed root = Except.ok (false, none)) := by
  constructor
  · intro h
    have hc : calculate_content_bounds root = Except.ok none := by
      unfold calculate_content_bounds
      rw [h]; rfl
    unfold trim_svg
    rw [hc]; rfl
  · intro h
    unfold trim_svg_fixed
    rw [h]; rfl

/-- Claim C6 witness: the theorem applied to a document with no visual
content. -/
theorem claim_C6_witness :
    trim_svg emptySvg = Except.ok (false, none) ∧
    trim_svg_fixed emptySvg = Except.ok (false, none) :=
  ⟨(claim_C6_no_content emptySvg).1 (by decide),
   (claim_C6_no_content emptySvg).2 (by decide)⟩

/-- Claim C7: a missing numeric attribute on a shape is read as 0 (the rect
with only `x="10"` gets width/height/y 0 and both trims succeed), while an
attribute whose text does not parse as a float raises an error that
propagates through the walk and aborts the whole operation in both
implementations — no output is produced and the value is not silently
zeroed. -/
theorem claim_C7_attr_errors :
    (∀ w : String, pyFloat w = none →
      trim_svg (badRectDoc w) = Except.error () ∧
      trim_svg_fixed (badRectDoc w) = Except.error ()) ∧
    shapeBounds (.mk "rect" [("x", "10")] []) = Except.ok (some ⟨10, 10, 0, 0⟩) ∧
    trim_svg noWidthRectDoc = Except.ok (true, some (5, -5, 10, 10)) ∧
    trim_svg_fixed noWidthRectDoc = Except.ok (true, some (0, -10, 30, 30)) := by
  refine ⟨fun w hw => ?_, by decide, by decide, by decide⟩
  have ha : attrF [("width", w)] "width" = Except.error () := by
    show (match pyFloat w with
          | some v => (Except.ok v : Except Unit ℚ)
          | none => Except.error ()) = Except.error ()
    rw [hw]
  have hsb : shapeBounds (Node.mk "rect" [("width", w)] []) = Except.error () := by
    show (attrF [("width", w)] "width" >>= fun ww =>
          attrF [("width", w)] "height" >>= fun hh =>
          pure (some (rectBounds 0 0 ww hh))) = Except.error ()
    rw [ha, except_bind_err]
  have hgeb : get_element_bounds (Node.mk "rect" [("width", w)] []) = Except.error () := by
    unfold get_element_bounds
    rw [hsb, except_bind_err]
  have h2 : collectBounds [Node.mk "rect" [("width", w)] []] = Except.error () := by
    unfold collectBounds
    rw [hgeb, except_bind_err]
  have h1 : get_element_bounds (badRectDoc w) = Except.ok none := rfl
  have hlr : legacyRects (badRectDoc w) = Except.error () := by
    show collectBounds [badRectDoc w, Node.mk "rect" [("width", w)] []] = Except.error ()
    unfold collectBounds
    simp only [h1, h2, except_bind_ok, except_bind_err]
  have hccb : calculate_content_bounds (badRectDoc w) = Except.error () := by
    unfold calculate_content_bounds
    rw [hlr, except_bind_err]
  have hfo : ∀ ox oy : ℚ, fixedOwnBounds "rect" [("width", w)] ox oy = Except.error () := by
    intro ox oy
    show (attrF [("width", w)] "width" >>= fun ww =>
          attrF [("width", w)] "height" >>= fun hh =>
          pure [(⟨0 + ox, 0 + ww + ox, 0 + oy, 0 + hh + oy⟩ : Rect)]) = Except.error ()
    rw [ha, except_bind_err]
  have hcbrR : ∀ pt : ℚ × ℚ,
      calculate_bounds_recursive (Node.mk "rect" [("width", w)] []) pt = Except.error () := by
    intro pt
    unfold calculate_bounds_recursive
    simp only [hfo, except_bind_err]
  have hsvg : ∀ ox oy : ℚ, fixedOwnBounds "svg" [] ox oy = Except.ok [] := fun _ _ => rfl
  have hmem : (localName (Node.mk "rect" [("width", w)] []).tag ∈ nonVisualTags) =
      (("rect" : String) ∈ nonVisualTags) := rfl
  have hwc : ∀ pt : ℚ × ℚ,
      walkChildren [Node.mk "rect" [("width", w)] []] pt = Except.error () := by
    intro pt
    unfold walkChildren
    simp only [hmem]
    rw [if_neg (by decide)]
    rw [hcbrR pt, except_bind_err]
  have hwalk : calculate_bounds_recursive (badRectDoc w) (0, 0) = Except.error () := by
    unfold badRectDoc calculate_bounds_recursive
    simp only [hsvg, hwc, except_bind_ok, except_bind_err]
  refine ⟨?_, ?_⟩
  · unfold trim_svg
    rw [hccb, except_bind_err]
  · unfold trim_svg_fixed
    rw [hwalk, except_bind_err]

/-- Claim C7 witness: the non-numeric width `"abc"` aborts both trims. -/
theorem claim_C7_witness :
    pyFloat "abc" = none ∧
    trim_svg (badRectDoc "abc") = Except.error () ∧
    trim_svg_fixed (badRectDoc "abc") = Except.error () :=
  ⟨by decide, (claim_C7_attr_errors.1 "abc" (by decide)).1,
   (claim_C7_attr_errors.1 "abc" (by decide)).2⟩

/-- Claim C8: the aggregation combine is componentwise min/min/max/max, it is
commutative and associative (also at the `Option` level used by the fold),
"no content" (`none`) is its two-sided identity, and the fixed
implementation's per-field `min()`/`max()` merge equals the legacy
implementation's running fold of `combine` started from "no content". -/
theorem claim_C8_fold_algebra :
    (∀ A B : Rect, combine A B =
      ⟨min A.min_x B.min_x, max A.max_x B.max_x,
       min A.min_y B.min_y, max A.max_y B.max_y⟩) ∧
    (∀ A B : Rect, combine A B = combine B A) ∧
    (∀ A B C : Rect, combine (combine A B) C = combine A (combine B C)) ∧
    (∀ A B : Option Rect, mergeOpt A B = mergeOpt B A) ∧
    (∀ A B C : Option Rect, mergeOpt (mergeOpt A B) C = mergeOpt A (mergeOpt B C)) ∧
    (∀ A : Option Rect, mergeOpt none A = A) ∧
    (∀ A : Option Rect, mergeOpt A none = A) ∧
    (∀ l : List Rect, fixedMerge l = aggregate l) :=
  ⟨fun _ _ => rfl, combine_comm_lemma, combine_assoc_lemma,
   mergeOpt_comm_lemma, mergeOpt_assoc_lemma,
   fun _ => rfl, fun A => by cases A <;> rfl, fixedMerge_eq_aggregate⟩

/-- Claim C9, counterexample: the shape resolver applied to a rect whose
`width` attribute is the (real, parseable) number -5 produces the rectangle
(min_x, max_x) = (0, -5), which violates min_x ≤ max_x. -/
theorem claim_C9_counterexample :
    shapeBounds (.mk "rect" [("width", "-5")] []) = Except.ok (some ⟨0, -5, 0, 0⟩) ∧
    ¬ WF ⟨0, -5, 0, 0⟩ :=
  ⟨by decide, fun h => absurd h.1 (by decide)⟩

/-- Claim C9 as amended: rectangles produced by the path parser and by the
line and polygon/polyline branches always satisfy min_x ≤ max_x and
min_y ≤ max_y; those of the rect, circle and ellipse branches satisfy it
provided the size attributes (width/height, r, rx/ry) are nonnegative; and
the invariant is preserved by translation by any offset and by the
aggregation combine. -/
theorem claim_C9_invariant :
    (∀ x y w h : ℚ, 0 ≤ w → 0 ≤ h → WF (rectBounds x y w h)) ∧
    (∀ cx cy r : ℚ, 0 ≤ r → WF (circleBounds cx cy r)) ∧
    (∀ cx cy rx ry : ℚ, 0 ≤ rx → 0 ≤ ry → WF (ellipseBounds cx cy rx ry)) ∧
    (∀ x1 y1 x2 y2 : ℚ, WF (lineBounds x1 y1 x2 y2)) ∧
    (∀ (d : String) (r : Rect), parse_path_bounds d = some r → WF r) ∧
    (∀ (d : String) (r : Rect), get_path_bounds d = some r → WF r) ∧
    (∀ (coords : List ℚ) (r : Rect), polygonBounds coords = some r → WF r) ∧
    (∀ (r : Rect) (tx ty : ℚ), WF r → WF (translateRect r tx ty)) ∧
    (∀ a b : Rect, WF a → WF b → WF (combine a b)) := by
  refine ⟨fun x y w h hw hh => ⟨by simp [rectBounds]; linarith, by simp [rectBounds]; linarith⟩,
          fun cx cy r hr => ⟨by simp [circleBounds]; linarith, by simp [circleBounds]; linarith⟩,
          fun cx cy rx ry hx hy => ⟨by simp [ellipseBounds]; linarith, by simp [ellipseBounds]; linarith⟩,
          fun x1 y1 x2 y2 => ⟨(min_le_left x1 x2).trans (le_max_left x1 x2),
                              (min_le_left y1 y2).trans (le_max_left y1 y2)⟩,
          fun d r h => boundsOfLists_wf _ _ r h,
          fun d r h => boundsOfLists_wf _ _ r h,
          fun coords r h => boundsOfLists_wf _ _ r h,
          fun r tx ty h => ⟨add_le_add_right h.1 tx, add_le_add_right h.2 ty⟩,
          fun a b ha hb => ⟨(min_le_left _ _).trans (ha.1.trans (le_max_left _ _)),
                            (min_le_left _ _).trans (ha.2.trans (le_max_left _ _))⟩⟩

/-- Claim C9 witness: the amended statement discharged at concrete inputs of
each hypothesis-bearing clause. -/
theorem claim_C9_witness :
    WF (rectBounds 10 10 20 30) ∧ WF (circleBounds 0 0 5) ∧
    WF (ellipseBounds 1 2 3 4) ∧ WF ⟨0, 10, 0, 10⟩ ∧
    WF (combine ⟨0, 1, 0, 1⟩ ⟨-1, 2, -1, 2⟩) :=
  ⟨claim_C9_invariant.1 10 10 20 30 (by decide) (by decide),
   claim_C9_invariant.2.1 0 0 5 (by decide),
   claim_C9_invariant.2.2.1 1 2 3 4 (by decide) (by decide),
   claim_C9_invariant.2.2.2.2.1 "M0,0 L10,10" ⟨0, 10, 0, 10⟩ (by decide),
   claim_C9_invariant.2.2.2.2.2.2.2.2 ⟨0, 1, 0, 1⟩ ⟨-1, 2, -1, 2⟩
     ⟨by decide, by decide⟩ ⟨by decide, by decide⟩⟩

/-- Claim C10.  Code evaluation: in the legacy resolver a `polyline` tag is
captured by the earlier `endswith('line')` branch, so its `points` attribute
is ignored entirely and the bounds come from the absent x1/y1/x2/y2
attributes (all 0); the claimed even/odd splitting — x values from even
token positions, the unpaired trailing token included — is what the legacy
`polygon` branch and the fixed implementation (both tags) compute, as the
remaining conjuncts show on the odd token list [0, 0, 10]. -/
theorem claim_C10_polyline_eval :
    get_element_bounds oddPolyline = Except.ok (some ⟨0, 0, 0, 0⟩) ∧
    calculate_bounds_recursive oddPolyline (0, 0) = Except.ok [⟨0, 10, 0, 0⟩] ∧
    get_element_bounds (.mk "polygon" [("points", "0,0 10")] []) =
      Except.ok (some ⟨0, 10, 0, 0⟩) ∧
    polygonBounds [0, 0, 10] = some ⟨0, 10, 0, 0⟩ ∧
    everyOther [0, 0, 10] = [0, 10] ∧ everyOther (List.tail [0, 0, 10]) = [0] ∧
    ((0 : ℚ) ≠ 10) :=
  ⟨by decide, by decide, by decide, by decide, by decide, by decide, by decide⟩
